import Mathlib

/-!
# Verification of the app2 Flask status service (src/docker/app2/app.py)

Shallow embedding of the service's pure request/response logic in Lean 4.

Modelling conventions:
* Python real arithmetic (`time.time()` differences, `//`, `%`, `int()`,
  `round(_, 2)`, `f"{x:.3f}"`) is embedded over `ℚ` with exact semantics:
  `x // y` is `⌊x / y⌋`, `x % y` is `x - y * ⌊x / y⌋` (Python's
  floored modulo), `int()` truncates toward zero, and `round` / `.3f`
  round half-to-even at the requested number of decimal places.
* `jsonify(...)` bodies are embedded as a small JSON AST (`Json`); a
  handler returns its JSON body together with the HTTP status code
  (Flask's default 200 unless the source returns an explicit code).
* Process-global configuration (`FLASK_ENV`, `LOG_LEVEL`, `PORT`, the
  interpreter/platform strings) and the per-request clock readings are
  collected in an `AppEnv` record passed to each handler.
* `print(...)` log output is modelled as explicitly returned log lines.
-/

/-- Python `int()` applied to a real value: truncation toward zero. -/
def pyInt (x : ℚ) : ℤ := if 0 ≤ x then ⌊x⌋ else ⌈x⌉

/-- Python floor division `x // y` on reals (result is an integer-valued real). -/
def pyFloorDiv (x y : ℚ) : ℚ := (⌊x / y⌋ : ℤ)

/-- Python modulo `x % y` on reals: `x - y * (x // y)`. -/
def pyMod (x y : ℚ) : ℚ := x - y * (⌊x / y⌋ : ℤ)

/-- `APP_VERSION` (app.py line 30). -/
def APP_VERSION : String := "1.0.0"

/-- `APP_NAME` (app.py line 31). -/
def APP_NAME : String := "app2-api-service"

/-- `get_uptime` (app.py lines 39-41): `time.time() - START_TIME`, with the
start-time and the current clock reading made explicit. -/
def get_uptime (start_time now : ℚ) : ℚ := now - start_time

/-- `days = int(seconds // 86400)` (app.py line 46). -/
def uptime_days (seconds : ℚ) : ℤ := pyInt (pyFloorDiv seconds 86400)

/-- `hours = int((seconds % 86400) // 3600)` (app.py line 47). -/
def uptime_hours (seconds : ℚ) : ℤ := pyInt (pyFloorDiv (pyMod seconds 86400) 3600)

/-- `minutes = int((seconds % 3600) // 60)` (app.py line 48). -/
def uptime_minutes (seconds : ℚ) : ℤ := pyInt (pyFloorDiv (pyMod seconds 3600) 60)

/-- `secs = int(seconds % 60)` (app.py line 49). -/
def uptime_secs (seconds : ℚ) : ℤ := pyInt (pyMod seconds 60)

/-- `format_uptime` (app.py lines 44-60): builds the list `parts` by appending
`f"{days}d"` / `f"{hours}h"` / `f"{minutes}m"` only when the unit is positive,
always appends `f"{secs}s"`, and joins with single spaces. -/
def format_uptime (seconds : ℚ) : String :=
  let days := uptime_days seconds
  let hours := uptime_hours seconds
  let minutes := uptime_minutes seconds
  let secs := uptime_secs seconds
  let parts : List String :=
    (if days > 0 then [toString days ++ "d"] else []) ++
    (if hours > 0 then [toString hours ++ "h"] else []) ++
    (if minutes > 0 then [toString minutes ++ "m"] else []) ++
    [toString secs ++ "s"]
  String.intercalate " " parts

-- ## Floor arithmetic lemmas relating the Python real-valued division chain
-- to integer division/modulo on `⌊seconds⌋`.

theorem pyInt_of_nonneg {x : ℚ} (h : 0 ≤ x) : pyInt x = ⌊x⌋ := by
  simp [pyInt, h]

theorem pyInt_intCast (k : ℤ) : pyInt (k : ℚ) = k := by
  unfold pyInt
  split <;> simp

/-- Floor of a real quotient by a positive integer equals integer division of
the floor. -/
theorem floor_div_intCast (a : ℚ) {c : ℤ} (hc : 0 < c) :
    ⌊a / (c : ℚ)⌋ = ⌊a⌋ / c := by
  have hc0 : (0 : ℚ) < (c : ℚ) := by exact_mod_cast hc
  apply le_antisymm
  · rw [Int.le_ediv_iff_mul_le hc, Int.le_floor]
    push_cast
    calc (⌊a / (c : ℚ)⌋ : ℚ) * c ≤ (a / c) * c := by
          have := Int.floor_le (a / (c : ℚ))
          exact mul_le_mul_of_nonneg_right this (le_of_lt hc0)
      _ = a := by field_simp
  · rw [Int.le_floor]
    rw [le_div_iff₀ hc0]
    have h1 : (⌊a⌋ / c) * c ≤ ⌊a⌋ := Int.ediv_mul_le _ (ne_of_gt hc)
    calc ((⌊a⌋ / c : ℤ) : ℚ) * c = (((⌊a⌋ / c) * c : ℤ) : ℚ) := by push_cast; ring
      _ ≤ (⌊a⌋ : ℚ) := by exact_mod_cast h1
      _ ≤ a := Int.floor_le a

theorem pyMod_nonneg (x : ℚ) {y : ℚ} (hy : 0 < y) : 0 ≤ pyMod x y := by
  have h : pyMod x y = y * Int.fract (x / y) := by
    unfold pyMod Int.fract
    field_simp
  rw [h]
  exact mul_nonneg (le_of_lt hy) (Int.fract_nonneg _)

theorem pyMod_lt (x : ℚ) {y : ℚ} (hy : 0 < y) : pyMod x y < y := by
  have h : pyMod x y = y * Int.fract (x / y) := by
    unfold pyMod Int.fract
    field_simp
  rw [h]
  calc y * Int.fract (x / y) < y * 1 :=
        (mul_lt_mul_left hy).mpr (Int.fract_lt_one _)
    _ = y := mul_one y

/-- Floor of the Python modulo by a positive integer equals integer `emod` of
the floor. -/
theorem floor_pyMod (a : ℚ) {c : ℤ} (hc : 0 < c) :
    ⌊pyMod a (c : ℚ)⌋ = ⌊a⌋ % c := by
  unfold pyMod
  have h1 : a - (c : ℚ) * (⌊a / (c : ℚ)⌋ : ℤ) = a - ((c * ⌊a / (c : ℚ)⌋ : ℤ) : ℚ) := by
    push_cast
    ring
  rw [h1, Int.floor_sub_int, floor_div_intCast a hc, Int.emod_def]

theorem uptime_days_eq (s : ℚ) : uptime_days s = ⌊s⌋ / 86400 := by
  unfold uptime_days pyFloorDiv
  rw [pyInt_intCast]
  have h1 : ((86400 : ℚ)) = ((86400 : ℤ) : ℚ) := by norm_num
  rw [h1, floor_div_intCast s (by norm_num : (0:ℤ) < 86400)]

theorem uptime_hours_eq (s : ℚ) : uptime_hours s = (⌊s⌋ % 86400) / 3600 := by
  unfold uptime_hours pyFloorDiv
  rw [pyInt_intCast]
  have h1 : ((86400 : ℚ)) = ((86400 : ℤ) : ℚ) := by norm_num
  have h2 : ((3600 : ℚ)) = ((3600 : ℤ) : ℚ) := by norm_num
  rw [h2, floor_div_intCast (pyMod s 86400) (by norm_num : (0:ℤ) < 3600)]
  rw [h1, floor_pyMod s (by norm_num : (0:ℤ) < 86400)]

theorem uptime_minutes_eq (s : ℚ) : uptime_minutes s = (⌊s⌋ % 3600) / 60 := by
  unfold uptime_minutes pyFloorDiv
  rw [pyInt_intCast]
  have h1 : ((3600 : ℚ)) = ((3600 : ℤ) : ℚ) := by norm_num
  have h2 : ((60 : ℚ)) = ((60 : ℤ) : ℚ) := by norm_num
  rw [h2, floor_div_intCast (pyMod s 3600) (by norm_num : (0:ℤ) < 60)]
  rw [h1, floor_pyMod s (by norm_num : (0:ℤ) < 3600)]

theorem uptime_secs_eq (s : ℚ) : uptime_secs s = ⌊s⌋ % 60 := by
  unfold uptime_secs
  have hpos : (0 : ℚ) < 60 := by norm_num
  rw [pyInt_of_nonneg (pyMod_nonneg s hpos)]
  have h1 : ((60 : ℚ)) = ((60 : ℤ) : ℚ) := by norm_num
  rw [h1, floor_pyMod s (by norm_num : (0:ℤ) < 60)]

/-- Integer-level restatement of `format_uptime`: the same unit decomposition
and part selection, computed with integer division/modulo on `⌊seconds⌋`. -/
def format_uptime_int (n : ℤ) : String :=
  let days := n / 86400
  let hours := n % 86400 / 3600
  let minutes := n % 3600 / 60
  let secs := n % 60
  let parts : List String :=
    (if days > 0 then [toString days ++ "d"] else []) ++
    (if hours > 0 then [toString hours ++ "h"] else []) ++
    (if minutes > 0 then [toString minutes ++ "m"] else []) ++
    [toString secs ++ "s"]
  String.intercalate " " parts

theorem format_uptime_eq_int (s : ℚ) : format_uptime s = format_uptime_int ⌊s⌋ := by
  simp only [format_uptime, format_uptime_int,
    uptime_days_eq, uptime_hours_eq, uptime_minutes_eq, uptime_secs_eq]

/-- Formatting rule transcribed from the (amended) specification wording: on
`⌊s⌋`, compute days `÷86400`, hours `(mod 86400)÷3600`, minutes
`(mod 3600)÷60`, seconds `mod 60`; emit each of the day/hour/minute units
exactly when non-zero, always emit the seconds unit, suffix units with
d/h/m/s, and separate adjacent units by single spaces. -/
def format_uptime_spec (s : ℚ) : String :=
  let n : ℤ := ⌊s⌋
  let d := n / 86400
  let h := n % 86400 / 3600
  let m := n % 3600 / 60
  let x := n % 60
  (if 0 < d then toString d ++ "d " else "") ++
  (if 0 < h then toString h ++ "h " else "") ++
  (if 0 < m then toString m ++ "m " else "") ++
  (toString x ++ "s")

theorem format_uptime_int_eq_spec_form (n : ℤ) :
    format_uptime_int n =
      (if 0 < n / 86400 then toString (n / 86400) ++ "d " else "") ++
      (if 0 < n % 86400 / 3600 then toString (n % 86400 / 3600) ++ "h " else "") ++
      (if 0 < n % 3600 / 60 then toString (n % 3600 / 60) ++ "m " else "") ++
      (toString (n % 60) ++ "s") := by
  unfold format_uptime_int
  by_cases hd : 0 < n / 86400 <;> by_cases hh : 0 < n % 86400 / 3600 <;>
    by_cases hm : 0 < n % 3600 / 60 <;>
      simp only [gt_iff_lt, hd, hh, hm, if_true, if_false, List.append_nil,
        List.nil_append, List.cons_append, List.singleton_append] <;>
      simp [String.intercalate, String.intercalate.go, String.append_assoc]

theorem format_uptime_eq_spec (s : ℚ) : format_uptime s = format_uptime_spec s := by
  rw [format_uptime_eq_int, format_uptime_int_eq_spec_form]
  rfl

-- ## Rounding / decimal formatting primitives

/-- Round a real value to the nearest integer, ties to even (the rounding used
by Python's `round` and fixed-point string formatting). -/
def round_half_even (x : ℚ) : ℤ :=
  let f := ⌊x⌋
  let r := x - (f : ℚ)
  if r < 1/2 then f
  else if 1/2 < r then f + 1
  else if f % 2 = 0 then f else f + 1

/-- Python `round(x, 2)` on reals: half-to-even at two decimal places. -/
def round2 (x : ℚ) : ℚ := (round_half_even (x * 100) : ℤ) / 100

/-- Left-pad the decimal digits of `n < 1000` to width 3. -/
def pad3 (n : ℕ) : String :=
  if n < 10 then "00" ++ toString n
  else if n < 100 then "0" ++ toString n
  else toString n

/-- Python `f"{x:.3f}"` on reals: fixed three decimal places, half-to-even. -/
def format_3f (x : ℚ) : String :=
  let m := round_half_even (x * 1000)
  let sign := if m < 0 then "-" else ""
  sign ++ toString (m.natAbs / 1000) ++ "." ++ pad3 (m.natAbs % 1000)

-- ## JSON values and the process environment

/-- JSON values as produced by `jsonify`. -/
inductive Json where
  | str (s : String)
  | num (q : ℚ)
  | bool (b : Bool)
  | arr (elems : List Json)
  | obj (fields : List (String × Json))

/-- Field lookup in a JSON object (`body["key"]`). -/
def Json.getField : Json → String → Option Json
  | .obj fs, k => fs.lookup k
  | _, _ => none

/-- Process-global configuration and per-request ambient inputs of the
handlers: the `FLASK_ENV` / `LOG_LEVEL` / `PORT` configuration read at
startup, `START_TIME`, the current clock reading `now` (`time.time()`),
the current `datetime.utcnow().isoformat()` string, the
`datetime.fromtimestamp(START_TIME).isoformat()` string, and the
interpreter / host strings interpolated into response bodies. -/
structure AppEnv where
  flask_env : String
  log_level : String
  port : ℤ
  start_time : ℚ
  now : ℚ
  utc_iso : String
  started_iso : String
  python_version_short : String
  python_version_full : String
  platform_desc : String
  python_path : String
  working_directory : String
  flask_version : String

/-- `log_request` (app.py lines 63-69): the printed line. -/
def log_request (method path : String) (forwarded_by : Option String) : String :=
  "[App2] " ++ method ++ " " ++ path ++ " - Forwarded by: " ++ forwarded_by.getD "unknown"

-- ## Route handlers (each returns its JSON body and HTTP status code;
-- `jsonify` responses carry Flask's default status 200 unless the source
-- returns an explicit code)

/-- `home` (app.py lines 77-101). -/
def home (e : AppEnv) : Json × ℕ :=
  (.obj [
    ("service", .str APP_NAME),
    ("version", .str APP_VERSION),
    ("message", .str "App 2 API Service - Limbic Capital DevOps Assessment"),
    ("status", .str "running"),
    ("timestamp", .str (e.utc_iso ++ "Z")),
    ("endpoints", .arr [
      .obj [("path", .str "/"), ("method", .str "GET"),
            ("description", .str "Service information")],
      .obj [("path", .str "/status"), ("method", .str "GET"),
            ("description", .str "Service status")],
      .obj [("path", .str "/health"), ("method", .str "GET"),
            ("description", .str "Detailed health check")],
      .obj [("path", .str "/info"), ("method", .str "GET"),
            ("description", .str "System information")]]),
    ("protection", .str "Cloudflare Zero Trust Access")], 200)

/-- `status` (app.py lines 104-121). -/
def status (e : AppEnv) : Json × ℕ :=
  let uptime_seconds := get_uptime e.start_time e.now
  (.obj [
    ("service", .str "app2"),
    ("status", .str "ok"),
    ("timestamp", .str (e.utc_iso ++ "Z")),
    ("uptime_seconds", .num (round2 uptime_seconds)),
    ("uptime", .str (format_uptime uptime_seconds)),
    ("version", .str APP_VERSION),
    ("environment", .str e.flask_env)], 200)

/-- `health` (app.py lines 124-155). -/
def health (e : AppEnv) : Json × ℕ :=
  let uptime_seconds := get_uptime e.start_time e.now
  (.obj [
    ("status", .str "healthy"),
    ("service", .str APP_NAME),
    ("version", .str APP_VERSION),
    ("timestamp", .str (e.utc_iso ++ "Z")),
    ("uptime", .obj [
      ("seconds", .num (round2 uptime_seconds)),
      ("formatted", .str (format_uptime uptime_seconds)),
      ("started_at", .str (e.started_iso ++ "Z"))]),
    ("environment", .obj [
      ("flask_env", .str e.flask_env),
      ("python_version", .str e.python_version_short),
      ("platform", .str e.platform_desc),
      ("log_level", .str e.log_level)]),
    ("system", .obj [
      ("python_path", .str e.python_path),
      ("working_directory", .str e.working_directory)]),
    ("checks", .obj [
      ("api_responsive", .bool true),
      ("can_connect", .bool true),
      ("environment_loaded", .bool true)])], 200)

/-- `info` (app.py lines 158-195). -/
def info (e : AppEnv) : Json × ℕ :=
  (.obj [
    ("service_name", .str APP_NAME),
    ("version", .str APP_VERSION),
    ("description", .str "Python Flask API service for Limbic Capital DevOps Assessment"),
    ("author", .str "Limbic Capital"),
    ("environment", .str e.flask_env),
    ("port", .num (e.port : ℚ)),
    ("python_version", .str e.python_version_full),
    ("flask_version", .str e.flask_version),
    ("architecture", .obj [
      ("layer", .str "Application Layer"),
      ("host", .str "LXD container (app-host)"),
      ("runtime", .str "Docker"),
      ("network", .str "internal_net (Docker bridge)"),
      ("exposure", .str "Cloudflare Tunnel with Zero Trust Access"),
      ("communication", .str "Called by app1 via Docker DNS")]),
    ("security", .obj [
      ("authentication", .str "Cloudflare Access"),
      ("encryption", .str "TLS via Cloudflare"),
      ("non_root_user", .bool true),
      ("minimal_privileges", .bool true)]),
    ("features", .arr [
      .str "RESTful API",
      .str "JSON responses",
      .str "Health monitoring",
      .str "Service-to-service communication",
      .str "Cloudflare Zero Trust integration"])], 200)

/-- `ping` (app.py lines 198-209). -/
def ping (e : AppEnv) : Json × ℕ :=
  (.obj [
    ("message", .str "pong"),
    ("service", .str "app2"),
    ("timestamp", .str (e.utc_iso ++ "Z"))], 200)

-- ## Error handlers

/-- `not_found` (app.py lines 217-234). -/
def not_found (e : AppEnv) (method path : String) : Json × ℕ :=
  (.obj [
    ("error", .str "Not Found"),
    ("message", .str ("Route " ++ method ++ " " ++ path ++ " not found")),
    ("status_code", .num 404),
    ("timestamp", .str (e.utc_iso ++ "Z")),
    ("available_endpoints", .arr [
      .str "GET /",
      .str "GET /status",
      .str "GET /health",
      .str "GET /info",
      .str "GET /ping"])], 404)

/-- `internal_error` (app.py lines 237-247), the registered handler for
HTTP 500. -/
def internal_error (e : AppEnv) : Json × ℕ :=
  (.obj [
    ("error", .str "Internal Server Error"),
    ("message", .str "Something went wrong"),
    ("status_code", .num 500),
    ("timestamp", .str (e.utc_iso ++ "Z"))], 500)

/-- `handle_exception` (app.py lines 250-264), the catch-all exception
handler; the first component is the printed log line. -/
def handle_exception (e : AppEnv) (error_str : String) : String × Json × ℕ :=
  ("[App2] Error: " ++ error_str,
   .obj [
     ("error", .str "Internal Server Error"),
     ("message", .str (if e.flask_env = "development"
       then error_str else "Something went wrong")),
     ("status_code", .num 500),
     ("timestamp", .str (e.utc_iso ++ "Z"))], 500)

-- ## Routing and middleware

/-- The URL rules registered with `@app.route` (app.py lines 77-209). -/
def registered_paths : List String :=
  ["/", "/status", "/health", "/info", "/ping"]

/-- The methods Flask registers for every such rule: the declared default GET
plus the automatically added HEAD and OPTIONS. -/
def route_methods : List String := ["GET", "HEAD", "OPTIONS"]

/-- Whether a method+path pair matches a registered route, i.e. names a
registered rule with one of the methods registered for it. -/
def matches_route (method path : String) : Bool :=
  route_methods.contains method && registered_paths.contains path

/-- `str(MethodNotAllowed())`: werkzeug's rendering of the 405 exception
raised when a registered path is requested with a disallowed method
(modelled from werkzeug, which is outside this repository). -/
def METHOD_NOT_ALLOWED_MSG : String :=
  "405 Method Not Allowed: The method is not allowed for the requested URL."

/-- Flask's dispatch over the registered rules. An unknown path raises
NotFound, answered by the registered 404 handler. A registered path with
method GET or HEAD runs the view (for HEAD the server strips the body bytes
on the wire; the computed body and the view's 200 status are kept here). A
registered path with method OPTIONS gets Flask's automatic bodyless 200
response. Any other method raises MethodNotAllowed; with no 405 handler
registered, the catch-all `handle_exception` answers it with status 500. -/
def dispatch (e : AppEnv) (method path : String) : Option Json × ℕ :=
  if registered_paths.contains path then
    if method = "GET" ∨ method = "HEAD" then
      if path = "/" then (some (home e).1, (home e).2)
      else if path = "/status" then (some (status e).1, (status e).2)
      else if path = "/health" then (some (health e).1, (health e).2)
      else if path = "/info" then (some (info e).1, (info e).2)
      else (some (ping e).1, (ping e).2)
    else if method = "OPTIONS" then (none, 200)
    else (some (handle_exception e METHOD_NOT_ALLOWED_MSG).2.1,
          (handle_exception e METHOD_NOT_ALLOWED_MSG).2.2)
  else (some (not_found e method path).1, (not_found e method path).2)

/-- An HTTP response: body, status code, and headers (keyed lookup). -/
structure HttpResponse where
  body : Json
  status_code : ℕ
  headers : String → Option String

/-- Setting a response header, overwriting any previous value. -/
def setHeader (h : String → Option String) (k v : String) :
    String → Option String :=
  fun k' => if k' = k then some v else h k'

/-- `before_request` (app.py lines 272-275): records the arrival instant on
the request. -/
def before_request (now : ℚ) : Option ℚ := some now

/-- `after_request` (app.py lines 278-297): sets the `X-Service` and
`X-Version` headers, sets `X-Response-Time` to `f"{duration:.3f}s"` when the
arrival instant was recorded, and in development mode logs the status code
together with the `X-Response-Time` value (or `N/A`). -/
def after_request (flask_env : String) (req_start : Option ℚ) (now : ℚ)
    (response : HttpResponse) : HttpResponse × List String :=
  let h1 := setHeader response.headers "X-Service" APP_NAME
  let h2 := setHeader h1 "X-Version" APP_VERSION
  let h3 := match req_start with
    | some t => setHeader h2 "X-Response-Time" (format_3f (now - t) ++ "s")
    | none => h2
  let logs := if flask_env = "development"
    then ["[App2] Response: " ++ toString response.status_code ++ " - " ++
          ((h3 "X-Response-Time").getD "N/A")]
    else []
  ({ response with headers := h3 }, logs)

/-- A fresh response wrapping a handler's return value, before any custom
header has been set. -/
def bareResponse (body : Json) (code : ℕ) : HttpResponse :=
  ⟨body, code, fun _ => none⟩

/-- A concrete non-development process environment used to instantiate
universally quantified theorems. -/
def sampleEnv : AppEnv :=
  { flask_env := "production", log_level := "info", port := 5000,
    start_time := 0, now := 10,
    utc_iso := "2026-10-12T00:00:00",
    started_iso := "2026-10-11T23:59:50",
    python_version_short := "3.12.0",
    python_version_full := "3.12.0 (main)",
    platform_desc := "Linux-6.8",
    python_path := "/usr/local/bin/python",
    working_directory := "/app",
    flask_version := "3.0.3" }

/-- `sampleEnv` with the environment label set to development. -/
def devEnv : AppEnv := { sampleEnv with flask_env := "development" }

theorem format_uptime_intCast (n : ℤ) : format_uptime (n : ℚ) = format_uptime_int n := by
  rw [format_uptime_eq_int, Int.floor_intCast]

theorem dispatch_unknown_path (e : AppEnv) (method path : String)
    (h : registered_paths.contains path = false) :
    dispatch e method path
      = (some (not_found e method path).1, (not_found e method path).2) := by
  unfold dispatch
  rw [h]
  rfl

-- ## Claims

/-- C1, counterexample: the claimed output for 3600 elapsed seconds is
"1h 0m 0s", but `format_uptime` omits the zero minutes unit even though a
higher unit is non-zero, producing "1h 0s". -/
theorem format_uptime_claim_counterexample :
    format_uptime 3600 = "1h 0s" ∧ format_uptime 3600 ≠ "1h 0m 0s" := by
  constructor
  · rw [show (3600:ℚ) = ((3600:ℤ):ℚ) by norm_num, format_uptime_intCast]; decide
  · rw [show (3600:ℚ) = ((3600:ℤ):ℚ) by norm_num, format_uptime_intCast]; decide

/-- C1, amended: for every non-negative elapsed-seconds value the formatter
decomposes `⌊s⌋` into days (÷86400), hours (remainder ÷3600), minutes
(remainder ÷60) and seconds (remainder) with integer truncation, emits each
of the days/hours/minutes units exactly when non-zero (zero units are
omitted even between non-zero units), always emits the seconds component,
and joins with single spaces; concretely 0 → "0s", 65 → "1m 5s",
3661 → "1h 1m 1s", 3600 → "1h 0s", 86400 → "1d 0s", 90000 → "1d 1h 0s",
59 → "59s". -/
theorem format_uptime_amended :
    (∀ s : ℚ, 0 ≤ s → format_uptime s = format_uptime_spec s) ∧
    format_uptime 0 = "0s" ∧
    format_uptime 65 = "1m 5s" ∧
    format_uptime 3661 = "1h 1m 1s" ∧
    format_uptime 3600 = "1h 0s" ∧
    format_uptime 86400 = "1d 0s" ∧
    format_uptime 90000 = "1d 1h 0s" ∧
    format_uptime 59 = "59s" := by
  refine ⟨fun s _ => format_uptime_eq_spec s, ?_, ?_, ?_, ?_, ?_, ?_, ?_⟩
  · rw [show (0:ℚ) = ((0:ℤ):ℚ) by norm_num, format_uptime_intCast]; decide
  · rw [show (65:ℚ) = ((65:ℤ):ℚ) by norm_num, format_uptime_intCast]; decide
  · rw [show (3661:ℚ) = ((3661:ℤ):ℚ) by norm_num, format_uptime_intCast]; decide
  · rw [show (3600:ℚ) = ((3600:ℤ):ℚ) by norm_num, format_uptime_intCast]; decide
  · rw [show (86400:ℚ) = ((86400:ℤ):ℚ) by norm_num, format_uptime_intCast]; decide
  · rw [show (90000:ℚ) = ((90000:ℤ):ℚ) by norm_num, format_uptime_intCast]; decide
  · rw [show (59:ℚ) = ((59:ℤ):ℚ) by norm_num, format_uptime_intCast]; decide

/-- C1 witness: the amended formatting law instantiated at 65 seconds. -/
theorem format_uptime_amended_witness :
    (0:ℚ) ≤ 65 ∧ format_uptime 65 = format_uptime_spec 65 :=
  ⟨by norm_num, format_uptime_amended.1 65 (by norm_num)⟩

/-- C2: for any process environment and error text, the catch-all exception
handler returns HTTP 500, its JSON message field is the raw error text
exactly when the environment label is "development" and "Something went
wrong" otherwise, and the raw error text is written to the log line in both
cases. -/
theorem handle_exception_redaction (e : AppEnv) (err : String) :
    (handle_exception e err).2.2 = 500 ∧
    (e.flask_env = "development" →
      (handle_exception e err).2.1.getField "message" = some (.str err)) ∧
    (e.flask_env ≠ "development" →
      (handle_exception e err).2.1.getField "message"
        = some (.str "Something went wrong")) ∧
    (handle_exception e err).1 = "[App2] Error: " ++ err := by
  refine ⟨rfl, ?_, ?_, rfl⟩
  · intro h
    simp +decide [handle_exception, Json.getField, List.lookup, h]
  · intro h
    simp +decide [handle_exception, Json.getField, List.lookup, h]

/-- C2 witness: the exception handler at a concrete development environment
and at a concrete production environment. -/
theorem handle_exception_redaction_witness :
    (handle_exception devEnv "boom").2.1.getField "message" = some (.str "boom") ∧
    (handle_exception sampleEnv "boom").2.1.getField "message"
      = some (.str "Something went wrong") :=
  ⟨(handle_exception_redaction devEnv "boom").2.1 rfl,
   (handle_exception_redaction sampleEnv "boom").2.2.1 (by decide)⟩

/-- C3: within one process lifetime (both call instants at or after the
recorded start time), uptime is non-negative at both instants and
non-decreasing between them. -/
theorem get_uptime_monotone (start t1 t2 : ℚ) (h1 : start ≤ t1) (h2 : t1 ≤ t2) :
    0 ≤ get_uptime start t1 ∧ 0 ≤ get_uptime start t2 ∧
    get_uptime start t1 ≤ get_uptime start t2 := by
  unfold get_uptime
  exact ⟨by linarith, by linarith, by linarith⟩

/-- C3 witness: uptime monotonicity at start 0 and call instants 1 and 2. -/
theorem get_uptime_monotone_witness :
    (0:ℚ) ≤ 1 ∧ (1:ℚ) ≤ 2 ∧
    (0 ≤ get_uptime 0 1 ∧ 0 ≤ get_uptime 0 2 ∧ get_uptime 0 1 ≤ get_uptime 0 2) :=
  ⟨by norm_num, by norm_num, get_uptime_monotone 0 1 2 (by norm_num) (by norm_num)⟩

/-- C4: on any response that does not already carry an `X-Response-Time`
header, the after-request middleware sets `X-Service` and `X-Version` to the
service name and version, sets `X-Response-Time` exactly when the arrival
instant was recorded (to the elapsed duration formatted with three decimal
places suffixed "s"), and leaves the body and status code unchanged. -/
theorem after_request_headers (env : String) (st : Option ℚ) (now : ℚ)
    (resp : HttpResponse) (h : resp.headers "X-Response-Time" = none) :
    (after_request env st now resp).1.headers "X-Service" = some APP_NAME ∧
    (after_request env st now resp).1.headers "X-Version" = some APP_VERSION ∧
    (after_request env st now resp).1.headers "X-Response-Time"
      = st.map (fun t => format_3f (now - t) ++ "s") ∧
    (after_request env st now resp).1.status_code = resp.status_code ∧
    (after_request env st now resp).1.body = resp.body := by
  cases st <;> simp +decide [after_request, setHeader, h]

/-- C4 witness: the middleware applied to a bare 200 response with a recorded
arrival instant. -/
theorem after_request_headers_witness :
    (bareResponse (.str "pong") 200).headers "X-Response-Time" = none ∧
    ((after_request "production" (some 0) 1 (bareResponse (.str "pong") 200)).1.headers
        "X-Service" = some APP_NAME ∧
     (after_request "production" (some 0) 1 (bareResponse (.str "pong") 200)).1.headers
        "X-Version" = some APP_VERSION ∧
     (after_request "production" (some 0) 1 (bareResponse (.str "pong") 200)).1.headers
        "X-Response-Time" = (some (0:ℚ)).map (fun t => format_3f (1 - t) ++ "s") ∧
     (after_request "production" (some 0) 1 (bareResponse (.str "pong") 200)).1.status_code
        = (bareResponse (.str "pong") 200).status_code ∧
     (after_request "production" (some 0) 1 (bareResponse (.str "pong") 200)).1.body
        = (bareResponse (.str "pong") 200).body) :=
  ⟨rfl, after_request_headers "production" (some 0) 1 (bareResponse (.str "pong") 200) rfl⟩

/-- C5, counterexample: `POST /status` matches no registered route (no rule
registers the POST method), yet the service answers it with status 500
through the catch-all exception handler, not with the claimed 404. -/
theorem route_matching_claim_counterexample :
    matches_route "POST" "/status" = false ∧
    (dispatch sampleEnv "POST" "/status").2 = 500 ∧
    (dispatch sampleEnv "POST" "/status").2 ≠ 404 :=
  ⟨by decide, rfl, by decide⟩

/-- C5 (amended): every request whose path matches no registered route — for
any method — is answered by the 404 handler: status 404, error field
"Not Found", a message naming the method and path, status_code field 404, a
timestamp, and exactly 5 available endpoints. -/
theorem not_found_unknown_path (e : AppEnv) (method path : String)
    (h : registered_paths.contains path = false) :
    ∃ body, dispatch e method path = (some body, 404) ∧
      body.getField "error" = some (.str "Not Found") ∧
      body.getField "message"
        = some (.str ("Route " ++ method ++ " " ++ path ++ " not found")) ∧
      body.getField "status_code" = some (.num 404) ∧
      body.getField "timestamp" = some (.str (e.utc_iso ++ "Z")) ∧
      ∃ l, body.getField "available_endpoints" = some (.arr l) ∧ l.length = 5 := by
  refine ⟨(not_found e method path).1, ?_, rfl, rfl, rfl, rfl, ⟨_, rfl, rfl⟩⟩
  exact dispatch_unknown_path e method path h

/-- C5 witness: the request `GET /doesnotexist`, whose path is unknown. -/
theorem not_found_unknown_path_witness :
    registered_paths.contains "/doesnotexist" = false ∧
    (∃ body, dispatch sampleEnv "GET" "/doesnotexist" = (some body, 404) ∧
      body.getField "error" = some (.str "Not Found") ∧
      body.getField "message"
        = some (.str ("Route " ++ "GET" ++ " " ++ "/doesnotexist" ++ " not found")) ∧
      body.getField "status_code" = some (.num 404) ∧
      body.getField "timestamp" = some (.str (sampleEnv.utc_iso ++ "Z")) ∧
      ∃ l, body.getField "available_endpoints" = some (.arr l) ∧ l.length = 5) :=
  ⟨by decide, not_found_unknown_path sampleEnv "GET" "/doesnotexist" (by decide)⟩

/-- C6: for every process environment, `GET /health` returns 200 with status
field "healthy" and a checks object holding exactly the three flags
api_responsive, can_connect and environment_loaded, all constantly true. -/
theorem health_always_healthy (e : AppEnv) :
    (health e).2 = 200 ∧
    (health e).1.getField "status" = some (.str "healthy") ∧
    (health e).1.getField "checks" = some (.obj [
      ("api_responsive", .bool true),
      ("can_connect", .bool true),
      ("environment_loaded", .bool true)]) :=
  ⟨rfl, rfl, rfl⟩

/-- C7: for every process environment, `GET /status` returns 200 with the
service id "app2", status "ok", a timestamp, uptime_seconds equal to the
current uptime rounded to 2 decimal places, the formatted uptime computed
from the same uptime value, the version, and the environment label. -/
theorem status_contract (e : AppEnv) :
    (status e).2 = 200 ∧
    (status e).1.getField "service" = some (.str "app2") ∧
    (status e).1.getField "status" = some (.str "ok") ∧
    (status e).1.getField "timestamp" = some (.str (e.utc_iso ++ "Z")) ∧
    (status e).1.getField "uptime_seconds"
      = some (.num (round2 (get_uptime e.start_time e.now))) ∧
    (status e).1.getField "uptime"
      = some (.str (format_uptime (get_uptime e.start_time e.now))) ∧
    (status e).1.getField "version" = some (.str APP_VERSION) ∧
    (status e).1.getField "environment" = some (.str e.flask_env) :=
  ⟨rfl, rfl, rfl, rfl, rfl, rfl, rfl, rfl⟩

/-- C8: for every process environment, `GET /` returns 200 with the service
name, version, the fixed message, status "running", the UTC timestamp with
trailing "Z", a static list of exactly 4 endpoint descriptors, and the
static protection label. -/
theorem home_contract (e : AppEnv) :
    (home e).2 = 200 ∧
    (home e).1.getField "service" = some (.str APP_NAME) ∧
    (home e).1.getField "version" = some (.str APP_VERSION) ∧
    (home e).1.getField "message"
      = some (.str "App 2 API Service - Limbic Capital DevOps Assessment") ∧
    (home e).1.getField "status" = some (.str "running") ∧
    (home e).1.getField "timestamp" = some (.str (e.utc_iso ++ "Z")) ∧
    (∃ l, (home e).1.getField "endpoints" = some (.arr l) ∧ l.length = 4) ∧
    (home e).1.getField "protection" = some (.str "Cloudflare Zero Trust Access") :=
  ⟨rfl, rfl, rfl, rfl, rfl, rfl, ⟨_, rfl, rfl⟩, rfl⟩

/-- C9: the uptime formatter depends only on the integer truncation of its
non-negative input, and the computed unit values reconstruct that truncation
exactly: days·86400 + hours·3600 + minutes·60 + secs = ⌊s⌋. -/
theorem format_uptime_floor_invariance (s : ℚ) (hs : 0 ≤ s) :
    format_uptime s = format_uptime ((⌊s⌋ : ℤ) : ℚ) ∧
    uptime_days s * 86400 + uptime_hours s * 3600 +
      uptime_minutes s * 60 + uptime_secs s = ⌊s⌋ := by
  constructor
  · rw [format_uptime_eq_int, format_uptime_eq_int, Int.floor_intCast]
  · rw [uptime_days_eq, uptime_hours_eq, uptime_minutes_eq, uptime_secs_eq]
    omega

/-- C9 witness: floor invariance and unit reconstruction at 65.5 seconds. -/
theorem format_uptime_floor_invariance_witness :
    (0:ℚ) ≤ 131/2 ∧
    (format_uptime (131/2) = format_uptime ((⌊(131/2 : ℚ)⌋ : ℤ) : ℚ) ∧
     uptime_days (131/2) * 86400 + uptime_hours (131/2) * 3600 +
       uptime_minutes (131/2) * 60 + uptime_secs (131/2) = ⌊(131/2 : ℚ)⌋) :=
  ⟨by norm_num, format_uptime_floor_invariance (131/2) (by norm_num)⟩

/-- C10: for every process environment — the development label included —
the registered HTTP-500 handler returns a body whose message field is
exactly "Something went wrong"; it never exposes raw error text. -/
theorem internal_error_unconditional_message (e : AppEnv) :
    (internal_error e).2 = 500 ∧
    (internal_error e).1.getField "message" = some (.str "Something went wrong") ∧
    (internal_error e).1.getField "error" = some (.str "Internal Server Error") ∧
    internal_error e = internal_error { e with flask_env := "development" } :=
  ⟨rfl, rfl, rfl, rfl⟩
